import Mathlib

/-!
Verification development for the `paddle-symbolic-trace` repository.

The definitions below are shallow embeddings of the Python source:

* `modify_lnotab`, `to_byte`, `assemble`, `stacksize`, `PyCodeGen.gen_resume_fn_at`,
  `gen_load_const` from
  `symbolic_trace/opcode_translator/executor/pycode_generator.py`;
* `MetaInfo` from `sot/infer_meta.py`;
* `TensorVariable`, `DygraphTracerVariable` guard and shape accessors from
  `sot/opcode_translator/executor/variables/basic.py`;
* `FallbackWrapper` and `CompileSIRCache` from `sot/symbolic/compile_cache.py`.

Machine-level details that matter are kept: Python `float('-inf')/float('inf')`
sentinels become the extended integers `XInt`; `arg & 0xFF` stays a bitwise and;
Python `assert` failures and raised exceptions become `Option`/`Except` errors.
Helpers of the repository that live outside the provided sources (the generic
`Cache` base class, `list_contain_by_id`, `meta_str`, `analysis_inputs`,
`add_global_guarded_variable`) are modelled from the spec, as marked on each.
-/

/-! ## Line-table re-encoding: `to_byte` and `modify_lnotab` -/

/-- `to_byte` from pycode_generator.py: wrap a negative delta into an unsigned
byte (`-1 => 255`). -/
def to_byte (num : Int) : Int :=
  if num < 0 then num + 256 else num

/-- The `while line_offset > 0` loop inside `modify_lnotab`: each iteration
appends the pair `(0, line_offset)` and then subtracts 127. -/
def lnotabLineLoop (line_offset : Int) : List Int :=
  if h : line_offset > 0 then
    0 :: line_offset :: lnotabLineLoop (line_offset - 127)
  else
    []
termination_by line_offset.toNat
decreasing_by
  simp_wf
  omega

/-- `modify_lnotab` from pycode_generator.py.  A `byte_offset` above 127 emits
`(127, 0)` pairs until it drops to at most 127 and then recurses (the Python
`while` loop followed by the recursive call, unfolded one step at a time); a
`line_offset` above 127 emits `(byte_offset, 127)` and then the
`lnotabLineLoop` chain; otherwise both deltas are emitted via `to_byte`. -/
def modify_lnotab (byte_offset line_offset : Int) : List Int :=
  if h : byte_offset > 127 then
    127 :: 0 :: modify_lnotab (byte_offset - 127) line_offset
  else if line_offset > 127 then
    byte_offset :: 127 :: lnotabLineLoop (line_offset - 127)
  else
    [to_byte byte_offset, to_byte line_offset]
termination_by byte_offset.toNat
decreasing_by
  simp_wf
  omega

/-- Sum of the line deltas (the second component of each emitted pair). -/
def lnotabLineSum : List Int → Int
  | [] => 0
  | [_] => 0
  | _ :: l :: rest => l + lnotabLineSum rest

/-! ## Bytecode assembly: `assemble` -/

/-- An instruction as consumed by `assemble`: its opcode byte, its optional
argument and its optional `starts_line` marker. -/
structure AsmInstr where
  opcode : Nat
  arg : Option Nat
  starts_line : Option Int
deriving DecidableEq, Repr

/-- The loop body of `assemble`, carrying `cur_line`, `cur_bytecode`, the byte
list built so far and the lnotab list built so far. -/
def assembleGo : List AsmInstr → Int → Nat → List Nat → List Int →
    List Nat × List Int
  | [], _, _, code, lnotab => (code, lnotab)
  | instr :: rest, cur_line, cur_bytecode, code, lnotab =>
    match instr.starts_line with
    | some l =>
      assembleGo rest l code.length
        (code ++ [instr.opcode, instr.arg.getD 0 &&& 0xFF])
        (lnotab ++ modify_lnotab ((code.length : Int) - (cur_bytecode : Int))
          (l - cur_line))
    | none =>
      assembleGo rest cur_line cur_bytecode
        (code ++ [instr.opcode, instr.arg.getD 0 &&& 0xFF]) lnotab

/-- `assemble` from pycode_generator.py: instruction list to bytecode bytes and
lnotab bytes. -/
def assemble (instructions : List AsmInstr) (firstlineno : Int) :
    List Nat × List Int :=
  assembleGo instructions firstlineno 0 [] []

/-! ## Stack-size computation: `stacksize` -/

/-- Extended integers standing for the Python floats used by `stacksize`:
`float('-inf')`, finite values, `float('inf')`. -/
inductive XInt where
  | ninf : XInt
  | fin : Int → XInt
  | pinf : XInt
deriving DecidableEq, Repr

/-- Python float `<=` on the sentinel values used by `stacksize`. -/
def XInt.ble : XInt → XInt → Bool
  | .ninf, _ => true
  | _, .pinf => true
  | .fin a, .fin b => a ≤ b
  | .pinf, _ => false
  | .fin _, .ninf => false

/-- Python `max` on extended integers (`max(a, b)` keeps `a` on ties). -/
def XInt.xmax (a b : XInt) : XInt := if XInt.ble a b then b else a

/-- Python `min` on extended integers (`min(a, b)` keeps `a` on ties). -/
def XInt.xmin (a b : XInt) : XInt := if XInt.ble b a then b else a

/-- Adding a finite stack effect to an extended integer; infinities absorb,
exactly as Python float arithmetic does. -/
def XInt.addInt : XInt → Int → XInt
  | .ninf, _ => .ninf
  | .fin a, b => .fin (a + b)
  | .pinf, _ => .pinf

/-- An instruction as consumed by `stacksize`: its two stack effects (the
`dis.stack_effect` values for `jump=False` and `jump=True`), whether its opcode
is in `opcode.hasjabs`/`opcode.hasjrel`, and the index of its jump target in
the instruction list (`instructions.index(instr.jump_to)`). -/
structure SInstr where
  effFall : Int
  effJump : Int
  isJump : Bool
  jumpTo : Nat
deriving DecidableEq, Repr

/-- The pair of `max_stack`/`min_stack` tables of `stacksize`. -/
structure StackBounds where
  maxS : List XInt
  minS : List XInt
deriving DecidableEq, Repr

/-- `update_stacksize` from `stacksize`: both tables at `nexti` are updated
from `max_stack[lasti] + stack_effect` (the source reads `max_stack`, not
`min_stack`, in the `min` update as well). -/
def update_stacksize (s : StackBounds) (lasti nexti : Nat) (eff : Int) :
    StackBounds where
  maxS := s.maxS.set nexti
    (XInt.xmax (s.maxS.getD nexti .ninf) ((s.maxS.getD lasti .ninf).addInt eff))
  minS := s.minS.set nexti
    (XInt.xmin (s.minS.getD nexti .pinf) ((s.maxS.getD lasti .ninf).addInt eff))

/-- One iteration of the `for idx in range(len(instructions))` loop of
`stacksize`: propagate to the fallthrough successor when one exists, then to
the jump target when the opcode is a jump. -/
def stacksizeStep (instrs : List SInstr) (s : StackBounds) (idx : Nat) :
    StackBounds :=
  match instrs[idx]? with
  | none => s
  | some instr =>
    let s1 := if idx + 1 < instrs.length then
        update_stacksize s idx (idx + 1) instr.effFall
      else s
    if instr.isJump then update_stacksize s1 idx instr.jumpTo instr.effJump
    else s1

/-- The two tables after the whole propagation loop of `stacksize`, starting
from `[-inf, ...]` / `[inf, ...]` with index 0 pinned to 0. -/
def computeBounds (instrs : List SInstr) : StackBounds :=
  let n := instrs.length
  (List.range n).foldl (stacksizeStep instrs)
    { maxS := (List.replicate n XInt.ninf).set 0 (XInt.fin 0)
      minS := (List.replicate n XInt.pinf).set 0 (XInt.fin 0) }

/-- Python `min` over a list of extended integers (seeded with `inf`). -/
def listMin (l : List XInt) : XInt := l.foldl XInt.xmin XInt.pinf

/-- Python `max` over a list of extended integers (seeded with `-inf`). -/
def listMax (l : List XInt) : XInt := l.foldl XInt.xmax XInt.ninf

/-- `stacksize` from pycode_generator.py: run the propagation loop, then
`assert min(min_stack) >= 0` (`none` models the fatal `AssertionError`) and
return `max(max_stack)`. -/
def stacksize (instrs : List SInstr) : Option XInt :=
  let s := computeBounds instrs
  if XInt.ble (XInt.fin 0) (listMin s.minS) then some (listMax s.maxS)
  else none

/-! ## Resume-function synthesis: `PyCodeGen.gen_resume_fn_at` -/

/-- An instruction as built by `gen_instr` in `gen_resume_fn_at`: opcode name,
optional `argval` (a variable name) and optional jump target, resolved as an
index into the original instruction list. -/
structure CGInstr where
  opname : String
  argval : Option String
  jumpToIdx : Option Nat
deriving DecidableEq, Repr

/-- The stack-argument name `__stack_arg{i}`. -/
def stackArgName (i : Nat) : String := "__stack_arg" ++ toString i

/-- The `LOAD_FAST __stack_arg{i}` prologue emitted for `stack_size` slots. -/
def stackArgLoads (stack_size : Nat) : List CGInstr :=
  (List.range stack_size).map fun i => CGInstr.mk "LOAD_FAST" (some (stackArgName i)) none

/-- The names of the `stack_size` stack-carried parameters, in order. -/
def stackArgNames (stack_size : Nat) : List String :=
  (List.range stack_size).map stackArgName

/-- The data of the synthesized resume function that
`PyCodeGen.gen_resume_fn_at` fixes before `gen_pycode` assembles it: the
instruction list, `co_argcount` and `co_varnames`. -/
structure ResumeFn where
  instructions : List CGInstr
  argcount : Nat
  varnames : List String
deriving DecidableEq, Repr

/-- `PyCodeGen.gen_resume_fn_at` from pycode_generator.py, over the decoded
original instructions and the original `co_varnames`.  `analysisInputs` stands
for `analysis_inputs` (the backward liveness analysis lives in
`instruction_utils/opcode_analysis.py`, outside the provided sources), taken
here as an arbitrary function so every statement holds for whatever list of
live inputs it computes.  At a `RETURN_VALUE` index the source returns
`None, set()`. -/
def gen_resume_fn_at (analysisInputs : List CGInstr → Nat → List String)
    (origin_instrs : List CGInstr) (origin_varnames : List String)
    (index stack_size : Nat) : Option ResumeFn × List String :=
  if (origin_instrs.getD index (CGInstr.mk "" none none)).opname = "RETURN_VALUE" then
    (none, [])
  else
    let inputs := analysisInputs origin_instrs index
    (some
      { instructions :=
          stackArgLoads stack_size
            ++ [CGInstr.mk "JUMP_ABSOLUTE" none (some index)]
            ++ origin_instrs
        argcount := inputs.length + stack_size
        varnames :=
          stackArgNames stack_size ++ inputs
            ++ origin_varnames.filter (fun v => ¬ v ∈ inputs) },
      inputs)

/-! ## Constant-pool loading: `PyCodeGen.gen_load_const` -/

/-- A Python object as seen by the constant pool: `oid` is its identity
(`id()`), `eqc` its equality class (`v == w` iff `eqc` agrees — `True == 1`
share one class while having distinct identities). -/
structure PyConst where
  oid : Nat
  eqc : Nat
deriving DecidableEq, Repr

/-- Modelled from the spec: `list_contain_by_id` (in `utils`, outside the
provided sources) — membership tested by object identity, not equality. -/
def list_contain_by_id (l : List PyConst) (v : PyConst) : Bool :=
  l.any fun x => x.oid == v.oid

/-- Modelled from the spec: `list_find_index_by_id` (in `utils`, outside the
provided sources) — first index whose element has the queried identity. -/
def list_find_index_by_id (l : List PyConst) (v : PyConst) : Nat :=
  l.findIdx fun x => x.oid == v.oid

/-- `PyCodeGen.gen_load_const` from pycode_generator.py: append the value to
`co_consts` unless an identical (by `id`) entry exists, then emit `LOAD_CONST`
with the index found by identity.  Returns the new pool and the emitted
index. -/
def gen_load_const (co_consts : List PyConst) (value : PyConst) :
    List PyConst × Nat :=
  let consts := if list_contain_by_id co_consts value then co_consts
    else co_consts ++ [value]
  (consts, list_find_index_by_id consts value)

/-! ## Tensor metadata: `MetaInfo` from infer_meta.py -/

/-- `MetaInfo` from infer_meta.py: shape, dtype and the stop-gradient flag. -/
structure MetaInfo where
  shape : List Int
  dtype : String
  stop_gradient : Bool
deriving DecidableEq, Repr

/-- A live `paddle.Tensor` as far as the traced code observes it: shape,
dtype, stop-gradient flag and eager name. -/
structure PTensor where
  shape : List Int
  dtype : String
  stop_gradient : Bool
  name : String
deriving DecidableEq, Repr

/-- `MetaInfo.from_tensor` from infer_meta.py. -/
def MetaInfo.from_tensor (t : PTensor) : MetaInfo :=
  { shape := t.shape, dtype := t.dtype, stop_gradient := t.stop_gradient }

/-- `MetaInfo.__eq__` from infer_meta.py: componentwise equality of shape,
dtype and stop-gradient flag. -/
def MetaInfo.eqPy (a b : MetaInfo) : Bool :=
  a.shape == b.shape && a.dtype == b.dtype && a.stop_gradient == b.stop_gradient

/-- `MetaInfo.is_dynamic_shape` from infer_meta.py: `-1 in self.shape`. -/
def MetaInfo.is_dynamic_shape (m : MetaInfo) : Bool :=
  m.shape.contains (-1)

/-! ## Trackers and guards: variables/basic.py -/

/-- The tracker variants of provenance recorded on a symbolic value
(tracker.py defines them; only their tags matter to the guarded code in
variables/basic.py). -/
inductive Tracker where
  | ConstTracker : Tracker
  | LocalTracker : String → Tracker
  | GetAttrTracker : String → Tracker
  | DummyTracker : Tracker
deriving DecidableEq, Repr

/-- A synthesized guard expression.  `metaCheck m` stands for the string
`str(MetaInfo.from_tensor(<frame expr>)) == '<m>'` produced by
`TensorVariable.make_stringify_guard`; `alwaysTrue` for the literal `"True"`
produced by `DygraphTracerVariable.make_stringify_guard`. -/
inductive StringifyExpression where
  | metaCheck : MetaInfo → StringifyExpression
  | alwaysTrue : StringifyExpression
deriving DecidableEq, Repr

/-- Modelled from the spec: evaluating a synthesized guard against the live
frame value.  `meta_str` (in `utils`, outside the provided sources) renders
the (shape, dtype, stop-gradient) triple, so the string comparison in the
guard body is a structural-equality check between the re-derived metadata and
the snapshot. -/
def evalStringifyExpression : StringifyExpression → PTensor → Bool
  | .metaCheck m, t => decide (MetaInfo.from_tensor t = m)
  | .alwaysTrue, _ => true

/-- `TensorVariable` from variables/basic.py, restricted to the fields its
guard and shape accessors read: the metadata snapshot, the tracker and the
optional live tensor. -/
structure TensorVariable where
  meta : MetaInfo
  tracker : Tracker
  value : Option PTensor
deriving DecidableEq, Repr

/-- `TensorVariable.make_stringify_guard` from variables/basic.py: the
`assert not isinstance(self.tracker, DummyTracker)` failure is the `.error`
case; otherwise the guard compares the re-derived metadata string against the
snapshot baked in at trace time. -/
def TensorVariable.make_stringify_guard (tv : TensorVariable) :
    Except String StringifyExpression :=
  if tv.tracker = Tracker.DummyTracker then
    Except.error "Can not make guard from dummy tracker"
  else
    Except.ok (StringifyExpression.metaCheck tv.meta)

/-- `DygraphTracerVariable` from variables/basic.py, restricted to its
tracker. -/
structure DygraphTracerVariable where
  tracker : Tracker
deriving DecidableEq, Repr

/-- `DygraphTracerVariable.make_stringify_guard` from variables/basic.py: the
same dummy-tracker assertion, then the constant guard `"True"`. -/
def DygraphTracerVariable.make_stringify_guard (dv : DygraphTracerVariable) :
    Except String StringifyExpression :=
  if dv.tracker = Tracker.DummyTracker then
    Except.error "Can not make guard from dummy tracker"
  else
    Except.ok StringifyExpression.alwaysTrue

/-! ## Shape access: `TensorVariable.shape` and `TensorVariable.size` -/

/-- Modelled from the spec: `FunctionGraph.add_global_guarded_variable`
(function_graph.py, outside the provided sources) records the variable among
the globally guarded ones. -/
def add_global_guarded_variable (g : List TensorVariable)
    (tv : TensorVariable) : List TensorVariable :=
  g ++ [tv]

/-- The `shape` property of `TensorVariable`: on a dynamic shape it raises
`BreakGraphError` (the `.error` case, carrying the shape mentioned in the
message) before anything else runs; otherwise it registers the variable as
globally guarded and returns the concrete shape.  The result pairs the
function-graph state with the outcome. -/
def TensorVariable.shapeProperty (tv : TensorVariable)
    (g : List TensorVariable) :
    List TensorVariable × Except (List Int) (List Int) :=
  if tv.meta.is_dynamic_shape then
    (g, Except.error tv.meta.shape)
  else
    (add_global_guarded_variable g tv, Except.ok tv.meta.shape)

/-- The `size` property of `TensorVariable`: on a dynamic shape it raises
`BreakGraphError`; otherwise it returns `reduce(operator.mul, shape, 1)`
without touching the function graph. -/
def TensorVariable.sizeProperty (tv : TensorVariable)
    (g : List TensorVariable) :
    List TensorVariable × Except (List Int) Int :=
  if tv.meta.is_dynamic_shape then
    (g, Except.error tv.meta.shape)
  else
    (g, Except.ok (tv.meta.shape.foldl (· * ·) 1))

/-! ## Compile cache: compile_cache.py -/

/-- One statement of a SIR: operation name, input symbol names, output symbol
names. -/
structure SIRStatement where
  op : String
  inputs : List String
  outputs : List String
deriving DecidableEq, Repr

/-- A SIR body: the ordered statement list. -/
abbrev SIR := List SIRStatement

/-- The compiled artifact stored by the cache: `FallbackWrapper(to_static(
compile_sir(...)), sir)`.  The backend compiler is external; the artifact is
determined by the SIR it was compiled from, which is what the cache contract
observes. -/
inductive CompiledArtifact where
  | wrapper : SIR → CompiledArtifact
deriving DecidableEq, Repr

/-- Modelled from the spec: the generic `Cache` base class (in `utils`,
outside the provided sources) together with `CompileSIRCache.key_fn` /
`value_fn`.  `key_fn` hashes `str(sir)`; the string form renders the
structural content of the SIR, so the key is modelled as that structural
content.  On a hit the stored artifact is returned and the state is
unchanged; on a miss `value_fn` compiles and the entry is stored. -/
def compileSIRCacheCall (state : List (SIR × CompiledArtifact)) (sir : SIR) :
    CompiledArtifact × List (SIR × CompiledArtifact) :=
  match state.find? (fun e => e.1 == sir) with
  | some e => (e.2, state)
  | none => (CompiledArtifact.wrapper sir, state ++ [(sir, CompiledArtifact.wrapper sir)])

/-! ## Compiled-artifact wrapper: `FallbackWrapper.__call__` -/

/-- `clear_eager_tensor_name` from compile_cache.py: blank every output
tensor's eager name. -/
def clear_eager_tensor_name (outs : List PTensor) : List PTensor :=
  outs.map fun t => { t with name := "" }

/-- `FallbackWrapper` from compile_cache.py.  `compiled_fn` is the
`paddle.jit.to_static` callable, `get_concrete_program` its specialization
query (both external, carried as fields so `__call__` can be stated for any of
them); `partial_program` and `concrete_program` are the cached
specializations, `none` right after `__init__`. -/
structure FallbackWrapper where
  compiled_fn : List PTensor → List PTensor
  get_concrete_program : List PTensor → String × (List PTensor → List PTensor)
  partial_program : Option (List PTensor → List PTensor)
  concrete_program : Option String
  SIR : SIR

/-- The guarding conditional of `FallbackWrapper.__call__`:
`self.partial_program is None or True`. -/
def FallbackWrapper.recompileCond (w : FallbackWrapper) : Bool :=
  w.partial_program.isNone || true

/-- `FallbackWrapper.__call__` from compile_cache.py: when the conditional
holds, run the compiled function and refresh both cached programs; otherwise
(the disabled fast path) run the cached partial program and leave the state
alone.  Output names are cleared either way. -/
def FallbackWrapper.call (w : FallbackWrapper) (args : List PTensor) :
    List PTensor × FallbackWrapper :=
  if w.recompileCond then
    let outputs := w.compiled_fn args
    (clear_eager_tensor_name outputs,
      { w with
        concrete_program := some (w.get_concrete_program args).1
        partial_program := some (w.get_concrete_program args).2 })
  else
    match w.partial_program with
    | some pp => (clear_eager_tensor_name (pp args), w)
    | none => ([], w)

/-! ## Order lemmas for the extended integers -/

theorem XInt.ble_refl (a : XInt) : XInt.ble a a = true := by
  cases a <;> simp [XInt.ble]

theorem XInt.ble_trans {a b c : XInt} (hab : XInt.ble a b = true)
    (hbc : XInt.ble b c = true) : XInt.ble a c = true := by
  cases a <;> cases b <;> cases c <;> simp_all [XInt.ble] <;> omega

theorem XInt.ble_total (a b : XInt) :
    XInt.ble a b = true ∨ XInt.ble b a = true := by
  cases a <;> cases b <;> simp [XInt.ble] <;> omega

theorem XInt.xmin_le_left (a b : XInt) : XInt.ble (XInt.xmin a b) a = true := by
  unfold XInt.xmin
  split
  · assumption
  · exact XInt.ble_refl a

theorem XInt.xmin_le_right (a b : XInt) :
    XInt.ble (XInt.xmin a b) b = true := by
  unfold XInt.xmin
  split
  · exact XInt.ble_refl b
  · rcases XInt.ble_total a b with h | h
    · exact h
    · simp_all

theorem XInt.le_xmin {a b c : XInt} (ha : XInt.ble c a = true)
    (hb : XInt.ble c b = true) : XInt.ble c (XInt.xmin a b) = true := by
  unfold XInt.xmin
  split <;> assumption

theorem foldl_xmin_le_acc (l : List XInt) (acc : XInt) :
    XInt.ble (l.foldl XInt.xmin acc) acc = true := by
  induction l generalizing acc with
  | nil => exact XInt.ble_refl acc
  | cons a t ih =>
    exact XInt.ble_trans (ih (XInt.xmin acc a)) (XInt.xmin_le_left acc a)

theorem foldl_xmin_le_mem (l : List XInt) (acc : XInt) :
    ∀ m ∈ l, XInt.ble (l.foldl XInt.xmin acc) m = true := by
  induction l generalizing acc with
  | nil => intro m hm; cases hm
  | cons a t ih =>
    intro m hm
    rcases List.mem_cons.mp hm with rfl | hm
    · exact XInt.ble_trans (foldl_xmin_le_acc t (XInt.xmin acc m))
        (XInt.xmin_le_right acc m)
    · exact ih (XInt.xmin acc a) m hm

theorem le_foldl_xmin (l : List XInt) (acc c : XInt)
    (hacc : XInt.ble c acc = true) (h : ∀ m ∈ l, XInt.ble c m = true) :
    XInt.ble c (l.foldl XInt.xmin acc) = true := by
  induction l generalizing acc with
  | nil => exact hacc
  | cons a t ih =>
    exact ih (XInt.xmin acc a)
      (XInt.le_xmin hacc (h a (List.mem_cons_self a t)))
      (fun m hm => h m (List.mem_cons_of_mem a hm))

/-- C1: whenever `stacksize` returns a value, the minimum stack depth computed
at every program point is nonnegative and the returned value is the maximum of
the per-point maxima; whenever some program point has minimum depth below
zero, `stacksize` fails with the fatal assertion error instead of returning a
number. -/
theorem stacksize_min_nonneg_and_returns_max (instrs : List SInstr)
    (hne : instrs ≠ []) :
    (∀ v : XInt, stacksize instrs = some v →
      (∀ m ∈ (computeBounds instrs).minS, XInt.ble (XInt.fin 0) m = true) ∧
      v = listMax (computeBounds instrs).maxS) ∧
    ((∃ m ∈ (computeBounds instrs).minS, XInt.ble (XInt.fin 0) m = false) →
      stacksize instrs = none) := by
  constructor
  · intro v hv
    unfold stacksize at hv
    by_cases hcond :
        XInt.ble (XInt.fin 0) (listMin (computeBounds instrs).minS) = true
    · rw [if_pos hcond] at hv
      refine ⟨fun m hm => ?_, (Option.some_injective _ hv).symm⟩
      exact XInt.ble_trans hcond
        (foldl_xmin_le_mem (computeBounds instrs).minS XInt.pinf m hm)
    · rw [if_neg hcond] at hv
      cases hv
  · rintro ⟨m, hm, hble⟩
    unfold stacksize
    rw [if_neg]
    intro hcond
    exact absurd
      (XInt.ble_trans hcond
        (foldl_xmin_le_mem (computeBounds instrs).minS XInt.pinf m hm))
      (by simp [hble])

/-- A balanced two-instruction sequence (a push of one value, then a return). -/
def stacksizeBalancedExample : List SInstr :=
  [⟨1, 0, false, 0⟩, ⟨0, 0, false, 0⟩]

/-- An unbalanced two-instruction sequence (a pop from an empty stack). -/
def stacksizeUnbalancedExample : List SInstr :=
  [⟨-1, 0, false, 0⟩, ⟨0, 0, false, 0⟩]

/-- Witness for C1 on concrete sequences: the balanced sequence has
nonnegative minima everywhere and maximum depth 1; the unbalanced one is
rejected. -/
theorem stacksize_min_nonneg_and_returns_max_witness :
    ((∀ m ∈ (computeBounds stacksizeBalancedExample).minS,
        XInt.ble (XInt.fin 0) m = true) ∧
      XInt.fin 1 = listMax (computeBounds stacksizeBalancedExample).maxS) ∧
    stacksize stacksizeUnbalancedExample = none :=
  ⟨(stacksize_min_nonneg_and_returns_max stacksizeBalancedExample
      (by decide)).1 (XInt.fin 1) (by decide),
   (stacksize_min_nonneg_and_returns_max stacksizeUnbalancedExample
      (by decide)).2 ⟨XInt.fin (-1), by decide, by decide⟩⟩

/-- C7: the line-delta splitting in `modify_lnotab` is broken at the concrete
input `byte_offset = 0, line_offset = 255`: the code emits the entry list
`[0, 127, 0, 128, 0, 1]`, whose entry `128` exceeds the 127 per-entry bound
and whose line deltas sum to `256`, not the requested `255` (the loop appends
the remaining offset before clamping it to 127). -/
theorem modify_lnotab_line_split_bug :
    modify_lnotab 0 255 = [0, 127, 0, 128, 0, 1] ∧
    ¬ (∀ e ∈ modify_lnotab 0 255, e ≤ 127) ∧
    lnotabLineSum (modify_lnotab 0 255) = 256 := by
  have h : modify_lnotab 0 255 = [0, 127, 0, 128, 0, 1] := by
    simp [modify_lnotab, lnotabLineLoop, to_byte]
  refine ⟨h, ?_, ?_⟩
  · rw [h]
    decide
  · rw [h]
    decide

/-! ## C10: two bytes per instruction in `assemble` -/

theorem land_255_eq_mod (x : Nat) : x &&& 255 = x % 256 := by
  simpa using Nat.and_pow_two_sub_one_eq_mod x 8

theorem join_pairs_length (f g : AsmInstr → Nat) (t : List AsmInstr) :
    ((t.map fun i => [f i, g i]).flatten).length = 2 * t.length := by
  induction t with
  | nil => simp
  | cons a t ih =>
    simp only [List.map_cons, List.flatten_cons, List.length_append,
      List.length_cons, List.length_nil, ih, List.length_map]
    omega

theorem assembleGo_code (instrs : List AsmInstr) (cl : Int) (cb : Nat)
    (code : List Nat) (lnotab : List Int) :
    (assembleGo instrs cl cb code lnotab).1 =
      code ++ (instrs.map fun i => [i.opcode, i.arg.getD 0 &&& 0xFF]).flatten := by
  induction instrs generalizing cl cb code lnotab with
  | nil => simp [assembleGo]
  | cons instr rest ih =>
    cases h : instr.starts_line with
    | some l => simp [assembleGo, h, ih]
    | none => simp [assembleGo, h, ih]

/-- C10: `assemble` emits exactly two bytes per instruction — the opcode and
the argument truncated to its low 8 bits (`arg & 0xFF`, i.e. reduced modulo
256, with a missing argument emitted as 0) — so the bytecode has exactly
twice as many bytes as there are instructions and no extended-argument
encoding is produced. -/
theorem assemble_two_bytes_per_instruction (instrs : List AsmInstr)
    (firstlineno : Int) :
    (assemble instrs firstlineno).1 =
      (instrs.map fun i => [i.opcode, i.arg.getD 0 % 256]).flatten ∧
    (assemble instrs firstlineno).1.length = 2 * instrs.length := by
  have h : (assemble instrs firstlineno).1 =
      (instrs.map fun i => [i.opcode, i.arg.getD 0 &&& 0xFF]).flatten := by
    simpa using assembleGo_code instrs firstlineno 0 [] []
  have hmod : (assemble instrs firstlineno).1 =
      (instrs.map fun i => [i.opcode, i.arg.getD 0 % 256]).flatten := by
    rw [h]
    congr 1
    exact List.map_congr_left fun i _ => by rw [land_255_eq_mod]
  refine ⟨hmod, ?_⟩
  rw [hmod]
  exact join_pairs_length _ _ instrs

/-! ## C2: resume-function synthesis -/

theorem stackArgNames_length (n : Nat) : (stackArgNames n).length = n := by
  simp [stackArgNames]

/-- C2: at a `RETURN_VALUE` break index, `gen_resume_fn_at` returns no
function and the empty input set; at any other index it returns a function
whose `co_argcount` is the live-input count plus the stack size, whose first
`co_argcount` variable names — the positional parameters — are exactly the
stack-carried arguments `__stack_arg0..` followed by the live inputs computed
by the liveness analysis, and whose body loads the stack arguments and then
unconditionally jumps to instruction `index` of the original sequence. -/
theorem gen_resume_fn_at_spec
    (analysisInputs : List CGInstr → Nat → List String)
    (origin_instrs : List CGInstr) (origin_varnames : List String)
    (index stack_size : Nat) :
    ((origin_instrs.getD index (CGInstr.mk "" none none)).opname =
        "RETURN_VALUE" →
      gen_resume_fn_at analysisInputs origin_instrs origin_varnames index
        stack_size = (none, [])) ∧
    ((origin_instrs.getD index (CGInstr.mk "" none none)).opname ≠
        "RETURN_VALUE" →
      gen_resume_fn_at analysisInputs origin_instrs origin_varnames index
          stack_size =
        (some
          { instructions :=
              stackArgLoads stack_size
                ++ [CGInstr.mk "JUMP_ABSOLUTE" none (some index)]
                ++ origin_instrs
            argcount :=
              (analysisInputs origin_instrs index).length + stack_size
            varnames :=
              stackArgNames stack_size ++ analysisInputs origin_instrs index
                ++ origin_varnames.filter
                  (fun v => ¬ v ∈ analysisInputs origin_instrs index) },
          analysisInputs origin_instrs index) ∧
      (stackArgNames stack_size ++ analysisInputs origin_instrs index
          ++ origin_varnames.filter
            (fun v => ¬ v ∈ analysisInputs origin_instrs index)).take
          ((analysisInputs origin_instrs index).length + stack_size) =
        stackArgNames stack_size ++ analysisInputs origin_instrs index) := by
  constructor
  · intro h
    unfold gen_resume_fn_at
    rw [if_pos h]
  · intro h
    refine ⟨?_, ?_⟩
    · unfold gen_resume_fn_at
      rw [if_neg h]
    · rw [List.append_assoc,
        ← List.append_assoc (stackArgNames stack_size)]
      exact List.take_left' (by simp [stackArgNames_length, Nat.add_comm])

/-- A liveness analysis reporting `x` live at every index, for the witness. -/
def resumeAnalysisExample : List CGInstr → Nat → List String :=
  fun _ _ => ["x"]

/-- A two-instruction original body: load `x`, then return. -/
def resumeOriginExample : List CGInstr :=
  [CGInstr.mk "LOAD_FAST" (some "x") none,
   CGInstr.mk "RETURN_VALUE" none none]

/-- The original `co_varnames` for the witness. -/
def resumeVarnamesExample : List String := ["x", "y"]

/-- Witness for C2: breaking at the `RETURN_VALUE` yields no resume function;
breaking at index 0 with two stack slots yields the described function. -/
theorem gen_resume_fn_at_spec_witness :
    gen_resume_fn_at resumeAnalysisExample resumeOriginExample
      resumeVarnamesExample 1 2 = (none, []) ∧
    (gen_resume_fn_at resumeAnalysisExample resumeOriginExample
        resumeVarnamesExample 0 2 =
      (some
        { instructions :=
            stackArgLoads 2
              ++ [CGInstr.mk "JUMP_ABSOLUTE" none (some 0)]
              ++ resumeOriginExample
          argcount :=
            (resumeAnalysisExample resumeOriginExample 0).length + 2
          varnames :=
            stackArgNames 2 ++ resumeAnalysisExample resumeOriginExample 0
              ++ resumeVarnamesExample.filter
                (fun v => ¬ v ∈ resumeAnalysisExample resumeOriginExample 0) },
        resumeAnalysisExample resumeOriginExample 0) ∧
    (stackArgNames 2 ++ resumeAnalysisExample resumeOriginExample 0
        ++ resumeVarnamesExample.filter
          (fun v => ¬ v ∈ resumeAnalysisExample resumeOriginExample 0)).take
        ((resumeAnalysisExample resumeOriginExample 0).length + 2) =
      stackArgNames 2 ++ resumeAnalysisExample resumeOriginExample 0) :=
  ⟨(gen_resume_fn_at_spec resumeAnalysisExample resumeOriginExample
      resumeVarnamesExample 1 2).1 (by decide),
   (gen_resume_fn_at_spec resumeAnalysisExample resumeOriginExample
      resumeVarnamesExample 0 2).2 (by decide)⟩

/-! ## C8: identity-based constant-pool deduplication -/

theorem findIdx_append_of_all_false {α : Type} {p : α → Bool} (l l' : List α)
    (h : ∀ x ∈ l, p x = false) :
    (l ++ l').findIdx p = l.length + l'.findIdx p := by
  induction l with
  | nil => simp
  | cons a t ih =>
    have ha := h a (List.mem_cons_self a t)
    simp only [List.cons_append, List.findIdx_cons, ha, cond_false,
      List.length_cons, ih (fun x hx => h x (List.mem_cons_of_mem a hx))]
    omega

/-- C8: `gen_load_const` deduplicates by identity, not equality.  Loading two
equal-but-distinct constants (same equality class, distinct object identity,
as for `True` and `1`) appends two distinct pool slots and emits distinct
indices; loading the very same object a second time leaves the pool unchanged
and emits the same index again. -/
theorem gen_load_const_identity_dedup (pool : List PyConst) (v w : PyConst)
    (hv : list_contain_by_id pool v = false)
    (hw : list_contain_by_id pool w = false)
    (hoid : v.oid ≠ w.oid) (heqc : v.eqc = w.eqc) :
    gen_load_const pool v = (pool ++ [v], pool.length) ∧
    gen_load_const (pool ++ [v]) w = (pool ++ [v] ++ [w], pool.length + 1) ∧
    pool.length ≠ pool.length + 1 ∧
    gen_load_const (pool ++ [v]) v = (pool ++ [v], pool.length) := by
  have hv' : ∀ x ∈ pool, (x.oid == v.oid) = false := by
    simpa [list_contain_by_id, List.any_eq_false] using hv
  have hw' : ∀ x ∈ pool, (x.oid == w.oid) = false := by
    simpa [list_contain_by_id, List.any_eq_false] using hw
  have hwv : ∀ x ∈ pool ++ [v], (x.oid == w.oid) = false := by
    intro x hx
    rcases List.mem_append.mp hx with hx | hx
    · exact hw' x hx
    · rcases List.mem_singleton.mp hx with rfl
      simpa using hoid
  have hfind_v : (pool ++ [v]).findIdx (fun x => x.oid == v.oid) =
      pool.length := by
    rw [findIdx_append_of_all_false pool [v] hv']
    simp [List.findIdx_cons]
  have hcontain_v : list_contain_by_id (pool ++ [v]) v = true := by
    simp [list_contain_by_id]
  have hcontain_w : list_contain_by_id (pool ++ [v]) w = false := by
    unfold list_contain_by_id
    rw [List.any_eq_false]
    intro x hx
    simpa using hwv x hx
  refine ⟨?_, ?_, by omega, ?_⟩
  · unfold gen_load_const
    rw [hv]
    simpa [list_find_index_by_id] using hfind_v
  · unfold gen_load_const
    rw [hcontain_w]
    simp only [Bool.false_eq_true, if_false, list_find_index_by_id]
    rw [findIdx_append_of_all_false (pool ++ [v]) [w] hwv]
    simp [List.findIdx_cons]
  · unfold gen_load_const
    rw [hcontain_v]
    simpa [list_find_index_by_id] using hfind_v

/-- The Python object `True`: identity 0, equality class 0. -/
def pyTrueConst : PyConst := ⟨0, 0⟩

/-- The Python object `1`: identity 1, same equality class as `True`. -/
def pyOneConst : PyConst := ⟨1, 0⟩

/-- Witness for C8 at the `True`/`1` pair on an empty pool. -/
theorem gen_load_const_identity_dedup_witness :
    gen_load_const [] pyTrueConst = ([pyTrueConst], 0) ∧
    gen_load_const [pyTrueConst] pyOneConst =
      ([pyTrueConst, pyOneConst], 1) ∧
    (0 : Nat) ≠ 1 ∧
    gen_load_const [pyTrueConst] pyTrueConst = ([pyTrueConst], 0) := by
  have h := gen_load_const_identity_dedup [] pyTrueConst pyOneConst
    (by decide) (by decide) (by decide) (by decide)
  simpa using h

/-! ## C3: compile-cache single flight per structural key -/

/-- C3: starting from an empty cache, a first request for `s1` creates exactly
one entry; a second request whose SIR is structurally identical (`s2 = s1`,
hence the same string form and hash) returns the previously compiled artifact
unchanged and leaves the single entry alone; a request whose SIR differs in
one operation name creates a second, distinct entry. -/
theorem compile_cache_single_flight (s1 s2 s3 : SIR) (h12 : s2 = s1)
    (i : Nat) (hi1 : i < s1.length) (hi3 : i < s3.length)
    (hop : (s1.get ⟨i, hi1⟩).op ≠ (s3.get ⟨i, hi3⟩).op) :
    compileSIRCacheCall [] s1 =
      (CompiledArtifact.wrapper s1, [(s1, CompiledArtifact.wrapper s1)]) ∧
    compileSIRCacheCall [(s1, CompiledArtifact.wrapper s1)] s2 =
      (CompiledArtifact.wrapper s1, [(s1, CompiledArtifact.wrapper s1)]) ∧
    compileSIRCacheCall [(s1, CompiledArtifact.wrapper s1)] s3 =
      (CompiledArtifact.wrapper s3,
        [(s1, CompiledArtifact.wrapper s1), (s3, CompiledArtifact.wrapper s3)]) ∧
    [(s1, CompiledArtifact.wrapper s1), (s3, CompiledArtifact.wrapper s3)].length = 2 := by
  have hne : s1 ≠ s3 := by
    intro h
    subst h
    exact hop rfl
  refine ⟨?_, ?_, ?_, rfl⟩
  · simp [compileSIRCacheCall]
  · subst h12
    simp [compileSIRCacheCall]
  · have hbeq : (s1 == s3) = false := beq_eq_false_iff_ne.mpr hne
    simp [compileSIRCacheCall, List.find?, hbeq]

/-- A one-statement SIR applying `add`. -/
def sirAddExample : SIR := [⟨"add", ["x", "y"], ["z"]⟩]

/-- The same SIR with the single operation name changed to `mul`. -/
def sirMulExample : SIR := [⟨"mul", ["x", "y"], ["z"]⟩]

/-- Witness for C3 on the concrete `add`/`mul` SIR pair. -/
theorem compile_cache_single_flight_witness :
    compileSIRCacheCall [] sirAddExample =
      (CompiledArtifact.wrapper sirAddExample,
        [(sirAddExample, CompiledArtifact.wrapper sirAddExample)]) ∧
    compileSIRCacheCall
        [(sirAddExample, CompiledArtifact.wrapper sirAddExample)]
        sirAddExample =
      (CompiledArtifact.wrapper sirAddExample,
        [(sirAddExample, CompiledArtifact.wrapper sirAddExample)]) ∧
    compileSIRCacheCall
        [(sirAddExample, CompiledArtifact.wrapper sirAddExample)]
        sirMulExample =
      (CompiledArtifact.wrapper sirMulExample,
        [(sirAddExample, CompiledArtifact.wrapper sirAddExample),
         (sirMulExample, CompiledArtifact.wrapper sirMulExample)]) ∧
    [(sirAddExample, CompiledArtifact.wrapper sirAddExample),
     (sirMulExample, CompiledArtifact.wrapper sirMulExample)].length = 2 :=
  compile_cache_single_flight sirAddExample sirAddExample sirMulExample rfl
    0 (by decide) (by decide) (by decide)

/-! ## C6: guards on non-guardable trackers are fatal -/

/-- C6: invoking `make_stringify_guard` on a value whose tracker is a
`DummyTracker` (derived-call provenance, no stable re-derivation path) aborts
with the assertion error before any guard expression is produced, on both
guard-producing variable classes; on any value with a non-dummy tracker no
such error is raised and a guard is produced. -/
theorem make_stringify_guard_dummy_is_fatal (tv : TensorVariable)
    (dv : DygraphTracerVariable) :
    (tv.tracker = Tracker.DummyTracker →
      tv.make_stringify_guard =
        Except.error "Can not make guard from dummy tracker") ∧
    (tv.tracker ≠ Tracker.DummyTracker →
      tv.make_stringify_guard =
        Except.ok (StringifyExpression.metaCheck tv.meta)) ∧
    (dv.tracker = Tracker.DummyTracker →
      dv.make_stringify_guard =
        Except.error "Can not make guard from dummy tracker") ∧
    (dv.tracker ≠ Tracker.DummyTracker →
      dv.make_stringify_guard = Except.ok StringifyExpression.alwaysTrue) := by
  refine ⟨fun h => ?_, fun h => ?_, fun h => ?_, fun h => ?_⟩ <;>
    simp [TensorVariable.make_stringify_guard,
      DygraphTracerVariable.make_stringify_guard, h]

/-- A tensor variable with derived-call (dummy) provenance. -/
def tensorVarDummyExample : TensorVariable :=
  ⟨⟨[2], "float32", false⟩, Tracker.DummyTracker, none⟩

/-- A tensor variable tracked to the frame local `x`. -/
def tensorVarLocalExample : TensorVariable :=
  ⟨⟨[2], "float32", false⟩, Tracker.LocalTracker "x", none⟩

/-- A tracer variable with dummy provenance. -/
def tracerVarDummyExample : DygraphTracerVariable := ⟨Tracker.DummyTracker⟩

/-- A tracer variable tracked to the frame local `tracer`. -/
def tracerVarLocalExample : DygraphTracerVariable :=
  ⟨Tracker.LocalTracker "tracer"⟩

/-- Witness for C6 on concrete guardable and non-guardable variables. -/
theorem make_stringify_guard_dummy_is_fatal_witness :
    tensorVarDummyExample.make_stringify_guard =
      Except.error "Can not make guard from dummy tracker" ∧
    tensorVarLocalExample.make_stringify_guard =
      Except.ok (StringifyExpression.metaCheck tensorVarLocalExample.meta) ∧
    tracerVarDummyExample.make_stringify_guard =
      Except.error "Can not make guard from dummy tracker" ∧
    tracerVarLocalExample.make_stringify_guard =
      Except.ok StringifyExpression.alwaysTrue :=
  ⟨(make_stringify_guard_dummy_is_fatal tensorVarDummyExample
      tracerVarDummyExample).1 rfl,
   (make_stringify_guard_dummy_is_fatal tensorVarLocalExample
      tracerVarDummyExample).2.1 (by decide),
   (make_stringify_guard_dummy_is_fatal tensorVarLocalExample
      tracerVarDummyExample).2.2.1 rfl,
   (make_stringify_guard_dummy_is_fatal tensorVarLocalExample
      tracerVarLocalExample).2.2.2 (by decide)⟩

/-! ## C4: tensor guards compare re-derived metadata with the snapshot -/

/-- C4: the guard synthesized for a tensor value with a guardable tracker is
the metadata comparison against the trace-time snapshot; evaluating it on a
live tensor agrees with `MetaInfo.__eq__` applied to the re-derived metadata
and the snapshot, so it is true exactly on tensors whose re-derived metadata
equals the snapshot and false whenever the shape or the dtype differs. -/
theorem tensor_guard_checks_structural_equality (tv : TensorVariable)
    (t : PTensor) (h : tv.tracker ≠ Tracker.DummyTracker) :
    tv.make_stringify_guard =
      Except.ok (StringifyExpression.metaCheck tv.meta) ∧
    evalStringifyExpression (StringifyExpression.metaCheck tv.meta) t =
      MetaInfo.eqPy (MetaInfo.from_tensor t) tv.meta ∧
    (MetaInfo.from_tensor t = tv.meta →
      evalStringifyExpression (StringifyExpression.metaCheck tv.meta) t =
        true) ∧
    ((t.shape ≠ tv.meta.shape ∨ t.dtype ≠ tv.meta.dtype) →
      evalStringifyExpression (StringifyExpression.metaCheck tv.meta) t =
        false) := by
  refine ⟨by simp [TensorVariable.make_stringify_guard, h], ?_, ?_, ?_⟩
  · rcases tv with ⟨⟨s, d, g⟩, tr, val⟩
    simp only [evalStringifyExpression, MetaInfo.eqPy, MetaInfo.from_tensor]
    by_cases h1 : t.shape = s <;> by_cases h2 : t.dtype = d <;>
      by_cases h3 : t.stop_gradient = g <;>
        simp [h1, h2, h3, MetaInfo.mk.injEq]
  · intro he
    simp [evalStringifyExpression, he]
  · intro hd
    simp only [evalStringifyExpression, decide_eq_false_iff_not]
    intro he
    rcases hd with hd | hd
    · exact hd (by rw [← he]; rfl)
    · exact hd (by rw [← he]; rfl)

/-- A live tensor matching the snapshot of `tensorVarLocalExample`. -/
def matchingTensorExample : PTensor := ⟨[2], "float32", false, "t0"⟩

/-- A live tensor whose shape differs from that snapshot. -/
def reshapedTensorExample : PTensor := ⟨[2, 3], "float32", false, "t1"⟩

/-- Witness for C4: the guard of `tensorVarLocalExample` accepts the matching
tensor and rejects the reshaped one. -/
theorem tensor_guard_checks_structural_equality_witness :
    evalStringifyExpression
      (StringifyExpression.metaCheck tensorVarLocalExample.meta)
      matchingTensorExample = true ∧
    evalStringifyExpression
      (StringifyExpression.metaCheck tensorVarLocalExample.meta)
      reshapedTensorExample = false :=
  ⟨((tensor_guard_checks_structural_equality tensorVarLocalExample
      matchingTensorExample (by decide)).2.2.1 (by decide)),
   ((tensor_guard_checks_structural_equality tensorVarLocalExample
      reshapedTensorExample (by decide)).2.2.2 (Or.inl (by decide)))⟩

/-! ## C5: shape access, graph breaks and registration -/

/-- A tensor variable whose snapshot has an unresolved `-1` dimension. -/
def dynamicTensorVarExample : TensorVariable :=
  ⟨⟨[-1], "float32", true⟩, Tracker.LocalTracker "x", none⟩

/-- A tensor variable whose snapshot shape is fully concrete. -/
def concreteTensorVarExample : TensorVariable :=
  ⟨⟨[2, 3], "float32", true⟩, Tracker.LocalTracker "y", none⟩

/-- C5 counterexample: on a tensor with an unresolved dimension, the `.shape`
read raises the graph break and registers nothing — the function-graph state
stays empty, so the claim that the graph-break case registers the tensor as a
globally guarded value fails on this input. -/
theorem tensor_shape_break_registers_nothing :
    (dynamicTensorVarExample.shapeProperty []).2 = Except.error [-1] ∧
    (dynamicTensorVarExample.shapeProperty []).1 = [] ∧
    dynamicTensorVarExample ∉ (dynamicTensorVarExample.shapeProperty []).1 := by
  refine ⟨rfl, rfl, ?_⟩
  show dynamicTensorVarExample ∉ ([] : List TensorVariable)
  exact List.not_mem_nil _

/-- C5 (amended): reading `.shape` on a fully concrete tensor value never
raises a graph break, returns the shape and registers the tensor as globally
guarded (`.size` likewise never breaks and returns the element count, without
registering); reading either on a value with an unresolved `-1` dimension
always raises the graph-break signal, and in that case no registration
occurs. -/
theorem tensor_shape_access_policy (tv : TensorVariable)
    (g : List TensorVariable) :
    (tv.meta.is_dynamic_shape = false →
      tv.shapeProperty g = (g ++ [tv], Except.ok tv.meta.shape) ∧
      tv.sizeProperty g = (g, Except.ok (tv.meta.shape.foldl (· * ·) 1))) ∧
    (tv.meta.is_dynamic_shape = true →
      tv.shapeProperty g = (g, Except.error tv.meta.shape) ∧
      tv.sizeProperty g = (g, Except.error tv.meta.shape)) := by
  constructor <;> intro h <;>
    simp [TensorVariable.shapeProperty, TensorVariable.sizeProperty,
      add_global_guarded_variable, h]

/-- Witness for C5 (amended) on the concrete and the dynamic tensor. -/
theorem tensor_shape_access_policy_witness :
    (concreteTensorVarExample.shapeProperty [] =
      ([] ++ [concreteTensorVarExample],
        Except.ok concreteTensorVarExample.meta.shape) ∧
     concreteTensorVarExample.sizeProperty [] =
      ([], Except.ok (concreteTensorVarExample.meta.shape.foldl (· * ·) 1))) ∧
    (dynamicTensorVarExample.shapeProperty [] =
      ([], Except.error dynamicTensorVarExample.meta.shape) ∧
     dynamicTensorVarExample.sizeProperty [] =
      ([], Except.error dynamicTensorVarExample.meta.shape)) :=
  ⟨(tensor_shape_access_policy concreteTensorVarExample []).1 (by decide),
   (tensor_shape_access_policy dynamicTensorVarExample []).2 (by decide)⟩

/-! ## C9: the compiled wrapper recompiles on every call -/

/-- C9: the guarding conditional of `FallbackWrapper.__call__` is true in
every state, so the cached-partial-program fast path is never taken: every
call runs the underlying compiled function and refreshes both the concrete
and the partial program from `get_concrete_program`. -/
theorem fallback_wrapper_recompiles_every_call (w : FallbackWrapper)
    (args : List PTensor) :
    w.recompileCond = true ∧
    w.call args =
      (clear_eager_tensor_name (w.compiled_fn args),
        { w with
          concrete_program := some (w.get_concrete_program args).1
          partial_program := some (w.get_concrete_program args).2 }) := by
  refine ⟨by simp [FallbackWrapper.recompileCond], ?_⟩
  simp [FallbackWrapper.call, FallbackWrapper.recompileCond]
